import Mathlib

/-!
Shallow embedding of the e2e test harness (`e2e/e2e_test.go`) and of the
policy-details tool handler (`pkg/tools/policy_details.go`) of the
terraform-mcp-server repository, together with proofs about the embedded
operations.

External effects are made explicit:
* outcomes of `docker` commands, HTTP requests and protocol calls are
  parameters of the embedded functions;
* calls into the Go `testing` package are recorded as actions (`TAction`)
  or as a termination mode (`StepExit`);
* the container runtime is a list of `Container` records.

Go byte strings are modeled as Lean `String`s (all identifiers involved are
ASCII, where byte indexing and character indexing agree).
-/

namespace TerraformMCP

/-- An interaction of harness code with the Go testing framework.
`tLog` is `t.Log` / `t.Logf`; `tFatal` is `t.Fatal` / `t.Fatalf` /
a failed `require` assertion (it aborts the running (sub-)test, registered
cleanup functions still run); `osExit` is `log.Fatalf`, which calls
`os.Exit(1)` and terminates the whole process at once, skipping every
registered cleanup function. -/
inductive TAction where
  | tLog (msg : String)
  | tFatal (msg : String)
  | osExit (msg : String)
deriving DecidableEq, Repr

/-- How a piece of test code terminates. `subTestFatal` corresponds to
`t.Fatal`-style aborts (cleanups still run, sibling sub-tests continue);
`processExit` corresponds to `log.Fatalf` / `os.Exit` (nothing else runs). -/
inductive StepExit where
  | normal
  | subTestFatal
  | processExit
deriving DecidableEq, Repr

/-- A container known to the container runtime: identifier (as printed by
`docker ps -q`, 12 characters), the image it was launched from, and whether
it is currently running. -/
structure Container where
  cid : String
  image : String
  running : Bool
deriving DecidableEq, Repr

/-- The live set of the container runtime. -/
abbrev DockerState := List Container

/-- The fixed image tag used both to launch containers and to sweep them:
`terraform-mcp-server:test-e2e`. -/
def testImage : String := "terraform-mcp-server:test-e2e"

/-- `docker ps -q --filter ancestor=testImage`: the identifiers of the
running containers launched from the given image, in runtime order. -/
def listRunning (s : DockerState) (img : String) : List String :=
  (s.filter (fun c => c.running && c.image == img)).map (fun c => c.cid)

/-- Effect of `docker stop` on a set of identifiers: every listed container
is no longer running; all other containers are untouched. -/
def stopIds (s : DockerState) (ids : List String) : DockerState :=
  s.map (fun c => if c.cid ∈ ids then { c with running := false } else c)

/-- A batch stop command as built by the sweep: the container identifiers
passed as command-line arguments to `docker stop`, and the identifiers
written to the command's standard input. -/
structure BatchStopCmd where
  argIds : List String
  stdinIds : List String
deriving DecidableEq, Repr

/-- Docker CLI contract for `docker stop`: the containers named as
command-line arguments are stopped; standard input is not read; invoked
with zero container arguments the command exits with a usage error and
stops nothing.  Returns the new runtime state and whether the command
succeeded. -/
def runBatchStop (s : DockerState) (cmd : BatchStopCmd) : DockerState × Bool :=
  match cmd.argIds with
  | [] => (s, false)
  | ids => (stopIds s ids, true)

/-- `cleanupAllTestContainers` (e2e_test.go:338): lists the running
containers whose image is the test image; on a listing failure it logs a
warning and returns; on empty output it logs and returns; otherwise it
builds `exec.Command("docker", "stop")` — with no container arguments —
sets the command's stdin to the newline-joined identifiers
(e2e_test.go:356-357), runs it, and logs a warning when it fails.  The
result is the new runtime state, the trace of testing-framework actions,
and the list of batch stop commands issued. -/
def cleanupAllTestContainers (s : DockerState) (listOk : Bool) :
    DockerState × List TAction × List BatchStopCmd :=
  if !listOk then
    (s, [.tLog "Cleaning up all test containers...",
         .tLog "Warning: failed to list test containers"], [])
  else
    let ids := listRunning s testImage
    if ids.isEmpty then
      (s, [.tLog "Cleaning up all test containers...",
           .tLog "No test containers found to cleanup"], [])
    else
      let cmd : BatchStopCmd := { argIds := [], stdinIds := ids }
      let r := runBatchStop s cmd
      if r.2 then
        (r.1, [.tLog "Cleaning up all test containers...",
               .tLog "Successfully cleaned up all test containers"], [cmd])
      else
        (r.1, [.tLog "Cleaning up all test containers...",
               .tLog "Warning: failed to stop some test containers"], [cmd])

/-- A docker command issued by `stopContainer`. -/
inductive DockerCmd where
  | stop (cid : String)
  | kill (cid : String)
deriving DecidableEq, Repr

/-- `stopContainer` (e2e_test.go:318): no-op on the empty identifier;
otherwise runs `docker stop`; on failure logs a warning and falls back to
`docker kill`, whose failure is again only a warning.  `stopErr` and
`killErr` are the outcomes of the two commands (`some msg` is a failure).
Returns the trace of testing-framework actions and the docker commands
issued. -/
def stopContainer (cid : String) (stopErr killErr : Option String) :
    List TAction × List DockerCmd :=
  if cid = "" then ([], [])
  else
    match stopErr with
    | none =>
        ([.tLog ("Stopping container: " ++ cid),
          .tLog ("Successfully stopped container: " ++ cid)],
         [.stop cid])
    | some e =>
        match killErr with
        | none =>
            ([.tLog ("Stopping container: " ++ cid),
              .tLog ("Warning: failed to stop container " ++ cid ++ ": " ++ e)],
             [.stop cid, .kill cid])
        | some ke =>
            ([.tLog ("Stopping container: " ++ cid),
              .tLog ("Warning: failed to stop container " ++ cid ++ ": " ++ e),
              .tLog ("Warning: failed to kill container " ++ cid ++ ": " ++ ke)],
             [.stop cid, .kill cid])

/-- Effect of `stopContainer` on the runtime state: the container is
stopped when either the graceful stop or the fallback kill succeeds. -/
def stopEffect (s : DockerState) (cid : String) (stopOk killOk : Bool) : DockerState :=
  if cid = "" then s
  else if stopOk || killOk then stopIds s [cid] else s

/-- Result of `startHTTPContainer` (e2e_test.go:288).  `testFailure` is the
`require.NoError` path (the launch command could not be executed: the
calling test fails, the run continues); `panicked` is the unguarded Go
slice `string(output)[:12]` going out of range, a run-aborting panic. -/
inductive StartResult where
  | handle (cid : String)
  | testFailure
  | panicked
deriving DecidableEq, Repr

/-- `startHTTPContainer` (e2e_test.go:288): runs
`docker run -d --rm -e MODE=http -p port:8080 terraform-mcp-server:test-e2e`;
`cmdOutput` is the outcome of `cmd.Output()`.  On success the code takes
`string(output)[:12]` with no length guard: when the output is shorter than
12 bytes this slice is out of range and panics. -/
def startHTTPContainer (cmdOutput : Except Unit String) : StartResult :=
  match cmdOutput with
  | .error _ => .testFailure
  | .ok out => if out.length < 12 then .panicked else .handle (out.take 12)

/-- `getTestPort` (e2e_test.go:366): `env` has the semantics of
`os.Getenv` (the empty string when the variable is unset). -/
def getTestPort (env : String → String) : String :=
  if env "E2E_TEST_PORT" ≠ "" then env "E2E_TEST_PORT" else "8080"

/-- The two URLs derived in `createHTTPClient` (e2e_test.go:255): the
health URL polled by `waitForServer` (`baseURL + "/health"`) and the MCP
endpoint handed to `NewStreamableHttpClient`. -/
structure HTTPClientURLs where
  healthURL : String
  mcpURL : String
deriving DecidableEq, Repr

/-- URL construction of `createHTTPClient`: `baseURL` is
`http://localhost:<port>`; the readiness poll targets `baseURL + "/health"`
and the client is bound to `baseURL + "/mcp"`. -/
def createHTTPClientURLs (env : String → String) : HTTPClientURLs :=
  let port := getTestPort env
  { healthURL := "http://localhost:" ++ port ++ "/health",
    mcpURL := "http://localhost:" ++ port ++ "/mcp" }

/-- Outcome of one `client.Get` against the health endpoint: a connection
error (no response received), or a response with the given status code. -/
abbrev Attempt := Except Unit Nat

/-- The readiness condition of `waitForServer`:
`err == nil && resp.StatusCode == 200`. -/
def isReady : Attempt → Bool
  | .ok 200 => true
  | _ => false

/-- Whether a response was received at all (`resp != nil`). -/
def gotResponse : Attempt → Bool
  | .ok _ => true
  | .error _ => false

/-- Result of the readiness poll: the index of the successful attempt if
any, the indices of the attempts whose response body was closed, and
whether the loop fell through to `t.Fatal`. -/
structure WaitResult where
  readyAt : Option Nat
  closed : List Nat
  fatal : Bool
deriving DecidableEq, Repr

/-- The retry loop of `waitForServer` (e2e_test.go:300), with the attempt
index made explicit.  On a ready response the body is closed and the loop
returns; on any other received response the body is closed and the loop
retries; on a connection error there is no body to close. -/
def waitLoop (f : Nat → Attempt) (i : Nat) : Nat → WaitResult
  | 0 => ⟨none, [], true⟩
  | fuel + 1 =>
    if isReady (f i) then ⟨some i, [i], false⟩
    else if gotResponse (f i) then
      let r := waitLoop f (i + 1) fuel
      ⟨r.readyAt, i :: r.closed, r.fatal⟩
    else waitLoop f (i + 1) fuel

/-- `waitForServer` (e2e_test.go:300): up to 30 attempts, one per second,
each a GET against `baseURL + "/health"`; `get url i` is the outcome of the
attempt number `i` against `url`.  A fall-through is `t.Fatal`. -/
def waitForServer (get : String → Nat → Attempt) (baseURL : String) : WaitResult :=
  waitLoop (get (baseURL ++ "/health")) 0 30

/-- The server name required by the handshake assertions. -/
def expectedServerName : String := "terraform-mcp-server"

/-- The `Initialize` sub-test of `runTestSuite` (e2e_test.go:74): on a
handshake error it calls `log.Fatalf` (process exit); on a server-name
mismatch `require.Equal` aborts the sub-test; otherwise it finishes
normally.  `initErr` states whether `client.Initialize` returned an
error. -/
def initSubTest (initErr : Bool) (serverName : String) : StepExit :=
  if initErr then .processExit
  else if serverName ≠ expectedServerName then .subTestFatal
  else .normal

/-- `ensureClientInitialized` (e2e_test.go:53): same handshake, but a
failure is reported with `t.Fatalf`, aborting only the calling
(sub-)test. -/
def ensureClientInitialized (initErr : Bool) (serverName : String) : StepExit :=
  if initErr then .subTestFatal
  else if serverName ≠ expectedServerName then .subTestFatal
  else .normal

/-- Control skeleton of `runTestSuite` (e2e_test.go:73): the `Initialize`
sub-test runs first; when it exits the process, none of the `numCases`
remaining per-tool sub-tests run; otherwise all of them are iterated
(each is its own sub-test, so its verdict never stops the iteration).
Returns the exit of the `Initialize` sub-test and how many of the
remaining sub-tests were run. -/
def runTestSuite (initErr : Bool) (serverName : String) (numCases : Nat) :
    StepExit × Nat :=
  match initSubTest initErr serverName with
  | .processExit => (.processExit, 0)
  | e => (e, numCases)

/-- External outcomes driving one run of the `HTTP` sub-test of `TestE2E`. -/
structure HTTPRunConfig where
  /-- outcome of `cmd.Output()` for `docker run -d` -/
  startOutput : Except Unit String
  /-- outcome of health attempt number `i` -/
  health : Nat → Attempt
  /-- `NewStreamableHttpClient` returned without error -/
  clientOk : Bool
  /-- `client.Initialize` in the `Initialize` sub-test returned an error -/
  initErr : Bool
  /-- `docker stop` in `stopContainer` succeeds -/
  stopOk : Bool
  /-- `docker kill` in `stopContainer` succeeds -/
  killOk : Bool
  /-- listing succeeds in the final sweep -/
  sweepListOk : Bool

/-- Outcome of one run of the `HTTP` sub-test: the final runtime state at
the moment the test process is gone, and whether the process was killed by
`os.Exit` (in which case no cleanup function ran). -/
structure RunOutcome where
  finalState : DockerState
  processExited : Bool
deriving DecidableEq, Repr

/-- The `HTTP` sub-test of `TestE2E` (e2e_test.go:27,43,255), composed with
the cleanup semantics of the Go testing package.  `TestE2E` registers the
sweep with `t.Cleanup` before the sub-tests run; `createHTTPClient` starts
the container and registers `stopContainer` with `t.Cleanup`; `t.Fatal`
aborts and panics still run the registered cleanups (most recent first),
but `log.Fatalf` in the `Initialize` sub-test calls `os.Exit(1)`, running
none of them. -/
def testE2E_HTTP (cfg : HTTPRunConfig) (s0 : DockerState) : RunOutcome :=
  match cfg.startOutput with
  | .error _ =>
      -- docker run failed: no container started; require.NoError fails the
      -- sub-test; the TestE2E-level sweep still runs
      ⟨(cleanupAllTestContainers s0 cfg.sweepListOk).1, false⟩
  | .ok out =>
      -- the container is running from this point on
      let s1 : DockerState := ⟨out.take 12, testImage, true⟩ :: s0
      if out.length < 12 then
        -- slice panic before the per-container t.Cleanup registration; the
        -- panic still runs the already-registered sweep, then aborts the run
        ⟨(cleanupAllTestContainers s1 cfg.sweepListOk).1, false⟩
      else
        let cid := out.take 12
        -- per-container cleanup (stopContainer) is registered here
        let afterCleanups :=
          (cleanupAllTestContainers (stopEffect s1 cid cfg.stopOk cfg.killOk)
            cfg.sweepListOk).1
        if (waitForServer (fun _ => cfg.health) "http://localhost:8080").fatal then
          -- readiness timeout: t.Fatal, cleanups run
          ⟨afterCleanups, false⟩
        else if !cfg.clientOk then
          -- client construction failed: require aborts, cleanups run
          ⟨afterCleanups, false⟩
        else if cfg.initErr then
          -- log.Fatalf inside the Initialize sub-test: os.Exit(1); neither
          -- stopContainer nor the sweep runs
          ⟨s1, true⟩
        else
          -- suite finished; cleanups run
          ⟨afterCleanups, false⟩

/-- One item of a tool response: `mcp.TextContent`, or any other content
type (the type assertion `response.Content[0].(mcp.TextContent)` fails on
the latter). -/
inductive ContentItem where
  | text (s : String)
  | nonText
deriving DecidableEq, Repr

/-- `mcp.CallToolResult` as inspected by the harness: the error flag and the
ordered content items. -/
structure CallToolResult where
  isError : Bool
  content : List ContentItem
deriving DecidableEq, Repr

/-- Outcome of `client.CallTool`: a transport- or tool-level error, or a
response. -/
abbrev CallOutcome := Except String CallToolResult

/-- The expected content-category tag of a test case.  The source compares
`TestContentType` against the constants `CONST_TYPE_DATA_SOURCE`,
`CONST_TYPE_RESOURCE`, `CONST_TYPE_GUIDES`, `CONST_TYPE_FUNCTIONS`
(declared outside the files under inspection); `otherTag` is any value
matching none of them, on which the if-chains fall through. -/
inductive ContentTag where
  | dataSource
  | resource
  | guides
  | functions
  | otherTag
deriving DecidableEq, Repr

/-- A test-case record: name, human description, input payload,
expected-failure flag, expected content-category tag. -/
structure TestCase where
  TestName : String
  TestDescription : String
  TestPayload : List (String × String)
  TestShouldFail : Bool
  TestContentType : ContentTag
deriving DecidableEq, Repr

/-- Verdict of one test case under the `require` assertions: the first
failed assertion aborts the case with `fail`. -/
inductive Verdict where
  | pass
  | fail
deriving DecidableEq, Repr

/-- `strings.Contains` / `require.Contains` on strings: substring test. -/
def containsSub (s pat : String) : Bool :=
  decide (pat.toList <:+: s.toList)

/-- Assertions of one `resolveProviderDocID` case (e2e_test.go:110):
expected failure requires an error and checks nothing else; expected
success requires no error, an unset error flag, exactly one content item,
that item textual, and the category substring selected by the tag. -/
def resolveProviderDocIDCheck (tc : TestCase) (o : CallOutcome) : Verdict :=
  match o with
  | .error _ => if tc.TestShouldFail then .pass else .fail
  | .ok resp =>
    if tc.TestShouldFail then .fail
    else if resp.isError then .fail
    else
      match resp.content with
      | [.text s] =>
          match tc.TestContentType with
          | .dataSource => if containsSub s "Category: data-sources" then .pass else .fail
          | .resource => if containsSub s "Category: resources" then .pass else .fail
          | .guides => if containsSub s "guide" then .pass else .fail
          | .functions => if containsSub s "functions" then .pass else .fail
          | .otherTag => .pass
      | _ => .fail

/-- Assertions of one `getProviderDocs` case (e2e_test.go:149): success
requires no error, an unset error flag, exactly one textual content item
containing `page_title`. -/
def getProviderDocsCheck (tc : TestCase) (o : CallOutcome) : Verdict :=
  match o with
  | .error _ => if tc.TestShouldFail then .pass else .fail
  | .ok resp =>
    if tc.TestShouldFail then .fail
    else if resp.isError then .fail
    else
      match resp.content with
      | [.text s] => if containsSub s "page_title" then .pass else .fail
      | _ => .fail

/-- Assertions of one `searchModules` case (e2e_test.go:180): success
requires no error and an unset error flag; when content items are present
only the first is inspected and required to be textual; an empty content
list is accepted with a log line. -/
def searchModulesCheck (tc : TestCase) (o : CallOutcome) : Verdict :=
  match o with
  | .error _ => if tc.TestShouldFail then .pass else .fail
  | .ok resp =>
    if tc.TestShouldFail then .fail
    else if resp.isError then .fail
    else
      match resp.content with
      | [] => .pass
      | .text _ :: _ => .pass
      | .nonText :: _ => .fail

/-- Assertions of one `moduleDetails` case (e2e_test.go:211): success
requires no error, an unset error flag, exactly one textual content item,
and the absence of the conflicting category marker selected by the tag. -/
def moduleDetailsCheck (tc : TestCase) (o : CallOutcome) : Verdict :=
  match o with
  | .error _ => if tc.TestShouldFail then .pass else .fail
  | .ok resp =>
    if tc.TestShouldFail then .fail
    else if resp.isError then .fail
    else
      match resp.content with
      | [.text s] =>
          match tc.TestContentType with
          | .dataSource => if containsSub s "**Category:** resources" then .fail else .pass
          | .resource => if containsSub s "**Category:** data-sources" then .fail else .pass
          | _ => .pass
      | _ => .fail

/-! Embedding of `pkg/tools/policy_details.go`. -/

/-- A tool-call argument value: a JSON string, or a value of any other JSON
type (on which `RequireString` fails). -/
inductive ArgValue where
  | str (s : String)
  | nonString
deriving DecidableEq, Repr

/-- The argument mapping of an `mcp.CallToolRequest`. -/
abbrev Args := List (String × ArgValue)

/-- Lookup of an argument by name. -/
def lookupArg (args : Args) (k : String) : Option ArgValue :=
  (args.find? (fun p => p.1 == k)).map (fun p => p.2)

/-- `request.RequireString` of the mcp-go library: the argument must be
present and a string; otherwise an error is returned. -/
def RequireString (args : Args) (k : String) : Except String String :=
  match lookupArg args k with
  | some (.str s) => .ok s
  | some .nonString => .error ("argument " ++ k ++ " is not of type string")
  | none => .error ("required argument " ++ k ++ " not found")

/-- `client.TerraformPolicyDetails.Included` entry: type tag and
attributes (name, shasum). -/
structure PolicyIncluded where
  type : String
  name : String
  shasum : String
deriving DecidableEq, Repr

/-- `client.TerraformPolicyDetails` as read by the handler:
`Data.Attributes.Readme` and the `Included` list. -/
structure TerraformPolicyDetails where
  readme : String
  included : List PolicyIncluded
deriving DecidableEq, Repr

/-- The `module "..."` block emitted for one `policy-modules` entry
(policy_details.go:64). -/
def moduleBlock (tid : String) (p : PolicyIncluded) : String :=
  "\nmodule \"" ++ p.name ++ "\" \x7b\nsource = \"https://registry.terraform.io/v2"
    ++ tid ++ "/policy-module/" ++ p.name ++ ".sentinel?checksum=sha256:"
    ++ p.shasum ++ "\"\n\x7d\n"

/-- The policy list lines emitted for one `policies` entry
(policy_details.go:72). -/
def policyLines (p : PolicyIncluded) : String :=
  "- POLICY_NAME: " ++ p.name ++ "\n- POLICY_CHECKSUM: sha256:" ++ p.shasum
    ++ "\n" ++ "\n---\n"

/-- The `moduleList` accumulator of the handler loop. -/
def moduleListOf (tid : String) (included : List PolicyIncluded) : String :=
  String.join ((included.filter (fun p => p.type == "policy-modules")).map
    (moduleBlock tid))

/-- The `policyList` accumulator of the handler loop. -/
def policyListOf (included : List PolicyIncluded) : String :=
  String.join ((included.filter (fun p => p.type == "policies")).map policyLines)

/-- The full text built by `getPolicyDetailsHandler` on success
(policy_details.go:57), given the policy id, the extracted readme, and the
included entries. -/
def policyText (tid readme : String) (included : List PolicyIncluded) : String :=
  "## Policy details about " ++ tid ++ " \n\n" ++ readme
    ++ "---\n"
    ++ "## Usage\n\n"
    ++ "Generate the content for a HashiCorp Configuration Language (HCL) file named policies.hcl. This file should define a set of policies. For each policy provided, create a distinct policy block using the following template.\n"
    ++ "\n```hcl\n"
    ++ "\n" ++ moduleListOf tid included
    ++ "\npolicy \"<<POLICY_NAME>>\" \x7b\nsource = \"https://registry.terraform.io/v2"
    ++ tid ++ "/policy/<<POLICY_NAME>>.sentinel?checksum=<<POLICY_CHECKSUM>>\"\nenforcement_level = \"advisory\"\n\x7d\n"
    ++ "\n```\n"
    ++ "Available policies with SHA for " ++ tid ++ " are: \n\n"
    ++ policyListOf included

/-- Result of `getPolicyDetailsHandler` as seen by the caller: the text of
the tool result when one is produced, the error when one is returned, and
whether `client.SendRegistryCall` was reached. -/
structure HandlerResult where
  result : Option String
  err : Option String
  registryCalled : Bool
deriving DecidableEq, Repr

/-- `getPolicyDetailsHandler` (policy_details.go:38).  The collaborators
are parameters: `registry url` is the outcome of
`SendRegistryCall(registryClient, "GET", url, logger, "v2")`, `unmarshal`
is `json.Unmarshal` into `TerraformPolicyDetails`, and `extractReadme` is
`utils.ExtractReadme`.  The argument is validated before any registry
call: a missing or non-string `terraform_policy_id` and the empty string
both return an error with a nil result. -/
def getPolicyDetailsHandler (args : Args)
    (registry : String → Except String String)
    (unmarshal : String → Except String TerraformPolicyDetails)
    (extractReadme : String → String) : HandlerResult :=
  match RequireString args "terraform_policy_id" with
  | .error _ =>
      ⟨none, some "terraform_policy_id is required and must be a string, it is fetched by running the search_policies tool", false⟩
  | .ok tid =>
    if tid = "" then
      ⟨none, some "terraform_policy_id cannot be empty, it is fetched by running the search_policies tool", false⟩
    else
      match registry (tid ++ "?include=policies,policy-modules,policy-library") with
      | .error _ =>
          ⟨none, some "Failed to fetch policy details: registry API did not return a successful response", true⟩
      | .ok body =>
        match unmarshal body with
        | .error _ =>
            ⟨none, some ("error unmarshalling policy details for " ++ tid), true⟩
        | .ok det =>
            ⟨some (policyText tid (extractReadme det.readme) det.included), none, true⟩

/-- Whether a trace consists of log actions only (no `t.Fatal`, no
`os.Exit`): cleanup code must never escalate. -/
def logsOnly (tr : List TAction) : Bool :=
  tr.all (fun a => match a with | .tLog _ => true | _ => false)

/-! Concrete inputs used by witness and counterexample theorems. -/

/-- A health endpoint that fails twice and is ready from the third attempt
on. -/
def demoHealth : Nat → Attempt :=
  fun i => if i < 2 then .error () else .ok 200

/-- An environment with `E2E_TEST_PORT=9191`. -/
def env9191 : String → String :=
  fun k => if k = "E2E_TEST_PORT" then "9191" else ""

/-- A runtime state with two running test-image containers, one running
container from another image and one stopped test-image container. -/
def demoDocker : DockerState :=
  [⟨"aaa", testImage, true⟩, ⟨"bbb", testImage, true⟩,
   ⟨"ccc", "other:image", true⟩, ⟨"ddd", testImage, false⟩]

/-- A 64-character identifier as printed by `docker run -d`. -/
def demoDockerID : String :=
  "0123456789abcdef0123456789abcdef0123456789abcdef0123456789abcdef"

/-- The `HTTP` sub-test run in which everything succeeds up to the
`Initialize` handshake, which errors. -/
def demoInitErrCfg : HTTPRunConfig :=
  { startOutput := .ok demoDockerID
    health := fun _ => .ok 200
    clientOk := true
    initErr := true
    stopOk := true
    killOk := true
    sweepListOk := true }

/-- A test case flagged expected-failure. -/
def demoFailCase : TestCase :=
  ⟨"bad-input", "a case expected to fail", [("providerName", "bad")], true, .otherTag⟩

/-- A test case flagged expected-success. -/
def demoOkCase : TestCase :=
  ⟨"good-input", "a case expected to succeed", [("moduleQuery", "vpc")], false, .otherTag⟩

/-- A successful response whose second content item is not textual. -/
def demoMixedResp : CallToolResult :=
  ⟨false, [.text "module data", .nonText]⟩

/-- A registry stub that is never consulted in the witness runs. -/
def demoRegistry : String → Except String String :=
  fun _ => .error "unreachable"

/-- An unmarshal stub that is never consulted in the witness runs. -/
def demoUnmarshal : String → Except String TerraformPolicyDetails :=
  fun _ => .error "unreachable"

/-- The identity readme extractor. -/
def demoExtract : String → String := fun s => s

/-- A GET function serving `demoHealth` on every URL. -/
def demoGet : String → Nat → Attempt := fun _ => demoHealth

/-!  Theorems.  -/

/-- Claim C3 (code bug): the claim says a handshake failure aborts only the
current sub-test and never terminates the whole test process.  The code of
`ensureClientInitialized` behaves that way (`t.Fatalf`), but the
`Initialize` sub-test of `runTestSuite` calls `log.Fatalf` on the very same
handshake error, which is `os.Exit(1)`: the process terminates and none of
the remaining sub-tests run. -/
theorem runTestSuite_handshake_exits_process (serverName : String) (numCases : Nat) :
    runTestSuite true serverName numCases = (StepExit.processExit, 0) ∧
    ensureClientInitialized true serverName = StepExit.subTestFatal := by
  constructor
  · simp [runTestSuite, initSubTest]
  · simp [ensureClientInitialized]

set_option maxRecDepth 4096 in
/-- Claim C4 (code bug): `startHTTPContainer` takes `string(output)[:12]`
with no length guard.  On an output shorter than 12 bytes the slice is out
of range and panics (aborting the whole run), instead of failing only the
calling test as the claim states; outputs of length at least 12 give the
truncated handle and an exec failure fails the calling test. -/
theorem startHTTPContainer_short_output_panics :
    startHTTPContainer (Except.ok "") = StartResult.panicked ∧
    startHTTPContainer (Except.ok "abc") = StartResult.panicked ∧
    startHTTPContainer (Except.ok demoDockerID) = StartResult.handle "0123456789ab" ∧
    startHTTPContainer (Except.error ()) = StartResult.testFailure := by
  refine ⟨rfl, rfl, ?_, rfl⟩
  decide

/-- Claim C8: the HTTP variant uses the port from `E2E_TEST_PORT` when that
variable is set to a non-empty value and `8080` otherwise; with
`E2E_TEST_PORT=9191` the readiness poll targets
`http://localhost:9191/health` and the client endpoint is
`http://localhost:9191/mcp`. -/
theorem getTestPort_spec (env : String → String) :
    (env "E2E_TEST_PORT" ≠ "" → getTestPort env = env "E2E_TEST_PORT") ∧
    (env "E2E_TEST_PORT" = "" → getTestPort env = "8080") ∧
    (env "E2E_TEST_PORT" = "9191" →
      createHTTPClientURLs env =
        { healthURL := "http://localhost:9191/health",
          mcpURL := "http://localhost:9191/mcp" }) := by
  refine ⟨fun h => ?_, fun h => ?_, fun h => ?_⟩
  · simp [getTestPort, h]
  · simp [getTestPort, h]
  · simp [createHTTPClientURLs, getTestPort, h]

/-- Witness for C8 at the concrete environment `E2E_TEST_PORT=9191`. -/
theorem getTestPort_spec_witness :
    createHTTPClientURLs env9191 =
      { healthURL := "http://localhost:9191/health",
        mcpURL := "http://localhost:9191/mcp" } :=
  (getTestPort_spec env9191).2.2 rfl

/-- Claim C9: `stopContainer` attempts a graceful `docker stop`, falls back
to `docker kill` exactly when the stop failed, and its trace consists of
log actions only (never `t.Fatal`, never an escalated failure), for every
identifier and every outcome of the two commands — in particular for a
handle whose container is already stopped, and on both of two successive
calls. -/
theorem stopContainer_spec (cid : String) (e1 e2 e3 e4 : Option String) :
    (logsOnly (stopContainer cid e1 e2).1 = true ∧
      logsOnly (stopContainer cid e3 e4).1 = true) ∧
    (cid ≠ "" →
      (stopContainer cid e1 e2).2 =
        .stop cid :: (if e1.isSome then [.kill cid] else [])) ∧
    (cid = "" → stopContainer cid e1 e2 = ([], [])) := by
  refine ⟨⟨?_, ?_⟩, fun h => ?_, fun h => ?_⟩
  · by_cases h : cid = "" <;> cases e1 <;> cases e2 <;> simp [stopContainer, logsOnly, h]
  · by_cases h : cid = "" <;> cases e3 <;> cases e4 <;> simp [stopContainer, logsOnly, h]
  · cases e1 <;> cases e2 <;> simp [stopContainer, h]
  · simp [stopContainer, h]

/-- Witness for C9: a failed graceful stop on container `abc` issues the
stop and then the fallback kill. -/
theorem stopContainer_spec_witness :
    (stopContainer "abc" (some "exit status 1") none).2 =
      [DockerCmd.stop "abc", DockerCmd.kill "abc"] := by
  have h := (stopContainer_spec "abc" (some "exit status 1") none none none).2.1
    (by decide)
  simpa using h

/-- Claim C5: in all four tool tables, a test case flagged expected-failure
passes exactly when `client.CallTool` returned a non-nil error; when it
did, no structural assertion is applied to the response (any error passes,
whatever the response would have been). -/
theorem expectedFailureCheck (tc : TestCase) (o : CallOutcome)
    (h : tc.TestShouldFail = true) :
    (resolveProviderDocIDCheck tc o = .pass ↔ ∃ e, o = .error e) ∧
    (getProviderDocsCheck tc o = .pass ↔ ∃ e, o = .error e) ∧
    (searchModulesCheck tc o = .pass ↔ ∃ e, o = .error e) ∧
    (moduleDetailsCheck tc o = .pass ↔ ∃ e, o = .error e) := by
  cases o with
  | error e =>
      simp [resolveProviderDocIDCheck, getProviderDocsCheck,
            searchModulesCheck, moduleDetailsCheck, h]
  | ok resp =>
      simp [resolveProviderDocIDCheck, getProviderDocsCheck,
            searchModulesCheck, moduleDetailsCheck, h]

/-- Witness for C5 at a concrete expected-failure case and a concrete
error. -/
theorem expectedFailureCheck_witness :
    resolveProviderDocIDCheck demoFailCase (Except.error "tool error") = Verdict.pass :=
  ((expectedFailureCheck demoFailCase _ rfl).1).mpr ⟨"tool error", rfl⟩

/-- Counterexample for C6: the `searchModules` success branch inspects only
the first content item (`response.Content[0]`), so the runner accepts a
successful response one of whose present items is not textual — refuting
the claim that textual kind is required of the items present. -/
theorem searchModules_accepts_nonText_item :
    searchModulesCheck demoOkCase (Except.ok demoMixedResp) = Verdict.pass ∧
    demoOkCase.TestShouldFail = false ∧
    demoMixedResp.isError = false ∧
    ContentItem.nonText ∈ demoMixedResp.content := by
  decide

/-- Claim C6 as amended: for expected-success cases the
`resolveProviderDocID`, `getProviderDocs` and `moduleDetails` tables accept
a response only if its error flag is unset and its content is exactly one
textual item; the `searchModules` table accepts exactly the responses with
an unset error flag whose content is either empty or has a textual first
item — items after the first are not inspected. -/
theorem expectedSuccessShape (tc : TestCase) (o : CallOutcome)
    (h : tc.TestShouldFail = false) :
    (resolveProviderDocIDCheck tc o = .pass →
        ∃ resp s, o = .ok resp ∧ resp.isError = false ∧ resp.content = [.text s]) ∧
    (getProviderDocsCheck tc o = .pass →
        ∃ resp s, o = .ok resp ∧ resp.isError = false ∧ resp.content = [.text s]) ∧
    (moduleDetailsCheck tc o = .pass →
        ∃ resp s, o = .ok resp ∧ resp.isError = false ∧ resp.content = [.text s]) ∧
    (searchModulesCheck tc o = .pass ↔
        ∃ resp, o = .ok resp ∧ resp.isError = false ∧
          (resp.content = [] ∨ ∃ s rest, resp.content = .text s :: rest)) := by
  cases o with
  | error e =>
      simp [resolveProviderDocIDCheck, getProviderDocsCheck,
            searchModulesCheck, moduleDetailsCheck, h]
  | ok resp =>
      by_cases hE : resp.isError
      · simp [resolveProviderDocIDCheck, getProviderDocsCheck,
              searchModulesCheck, moduleDetailsCheck, h, hE]
      · rcases hc : resp.content with _ | ⟨c, rest⟩
        · refine ⟨?_, ?_, ?_, ?_⟩ <;>
            simp [resolveProviderDocIDCheck, getProviderDocsCheck,
                  searchModulesCheck, moduleDetailsCheck, h, hE, hc]
        · cases c with
          | text s =>
              cases rest with
              | nil =>
                  refine ⟨fun _ => ⟨resp, s, rfl, by simpa using hE, hc⟩,
                          fun _ => ⟨resp, s, rfl, by simpa using hE, hc⟩,
                          fun _ => ⟨resp, s, rfl, by simpa using hE, hc⟩, ?_⟩
                  simp [searchModulesCheck, h, hE, hc]
              | cons c2 rest2 =>
                  refine ⟨?_, ?_, ?_, ?_⟩ <;>
                    simp [resolveProviderDocIDCheck, getProviderDocsCheck,
                          searchModulesCheck, moduleDetailsCheck, h, hE, hc]
          | nonText =>
              refine ⟨?_, ?_, ?_, ?_⟩ <;>
                simp [resolveProviderDocIDCheck, getProviderDocsCheck,
                      searchModulesCheck, moduleDetailsCheck, h, hE, hc]

/-- Witness for the amended C6: `searchModules` accepts an empty successful
response. -/
theorem expectedSuccessShape_witness :
    searchModulesCheck demoOkCase (Except.ok ⟨false, []⟩) = Verdict.pass :=
  ((expectedSuccessShape demoOkCase _ rfl).2.2.2).mpr
    ⟨⟨false, []⟩, rfl, rfl, Or.inl rfl⟩

/-- Claim C10: `getPolicyDetailsHandler` validates `terraform_policy_id`
before any registry call: a missing argument, a non-string argument and the
empty string each yield a nil result with a non-nil error and no registry
call; conversely the registry is reached only when a non-empty string
`terraform_policy_id` is present. -/
theorem policyDetails_validation (args : Args)
    (registry : String → Except String String)
    (unmarshal : String → Except String TerraformPolicyDetails)
    (extr : String → String) :
    (lookupArg args "terraform_policy_id" = none →
        (getPolicyDetailsHandler args registry unmarshal extr).result = none ∧
        (getPolicyDetailsHandler args registry unmarshal extr).err.isSome = true ∧
        (getPolicyDetailsHandler args registry unmarshal extr).registryCalled = false) ∧
    (lookupArg args "terraform_policy_id" = some .nonString →
        (getPolicyDetailsHandler args registry unmarshal extr).result = none ∧
        (getPolicyDetailsHandler args registry unmarshal extr).err.isSome = true ∧
        (getPolicyDetailsHandler args registry unmarshal extr).registryCalled = false) ∧
    (lookupArg args "terraform_policy_id" = some (.str "") →
        (getPolicyDetailsHandler args registry unmarshal extr).result = none ∧
        (getPolicyDetailsHandler args registry unmarshal extr).err.isSome = true ∧
        (getPolicyDetailsHandler args registry unmarshal extr).registryCalled = false) ∧
    ((getPolicyDetailsHandler args registry unmarshal extr).registryCalled = true →
        ∃ s, s ≠ "" ∧ lookupArg args "terraform_policy_id" = some (.str s)) := by
  refine ⟨fun h => ?_, fun h => ?_, fun h => ?_, ?_⟩
  · simp [getPolicyDetailsHandler, RequireString, h]
  · simp [getPolicyDetailsHandler, RequireString, h]
  · simp [getPolicyDetailsHandler, RequireString, h]
  · rcases hl : lookupArg args "terraform_policy_id" with _ | v
    · simp [getPolicyDetailsHandler, RequireString, hl]
    · cases v with
      | nonString => simp [getPolicyDetailsHandler, RequireString, hl]
      | str s =>
          by_cases hs : s = ""

          · simp [getPolicyDetailsHandler, RequireString, hl, hs]
          · exact fun _ => ⟨s, hs, by simp [hl]⟩

/-- Witness for C10 at the empty argument mapping. -/
theorem policyDetails_validation_witness :
    (getPolicyDetailsHandler [] demoRegistry demoUnmarshal demoExtract).result = none ∧
    (getPolicyDetailsHandler [] demoRegistry demoUnmarshal demoExtract).err.isSome = true ∧
    (getPolicyDetailsHandler [] demoRegistry demoUnmarshal demoExtract).registryCalled = false :=
  (policyDetails_validation [] demoRegistry demoUnmarshal demoExtract).1 rfl

/-- A ready attempt carries a response. -/
lemma got_of_ready {a : Attempt} (h : isReady a = true) : gotResponse a = true := by
  cases a with
  | error e => simp [isReady] at h
  | ok v => simp [gotResponse]

/-- Characterization of the attempt index at which the poll loop returns
successfully. -/
lemma waitLoop_readyAt_iff (f : Nat → Attempt) :
    ∀ (fuel i k : Nat),
      (waitLoop f i fuel).readyAt = some k ↔
        (i ≤ k ∧ k < i + fuel ∧ isReady (f k) = true ∧
          ∀ j, i ≤ j → j < k → isReady (f j) = false) := by
  intro fuel
  induction fuel with
  | zero =>
      intro i k
      constructor
      · intro h; simp [waitLoop] at h
      · rintro ⟨h1, h2, -, -⟩; omega
  | succ n ih =>
      intro i k
      cases hri : isReady (f i) with
      | true =>
          constructor
          · intro h
            have hik : i = k := by simpa [waitLoop, hri] using h
            subst hik
            exact ⟨le_refl _, by omega, hri, fun j hj1 hj2 => by omega⟩
          · rintro ⟨h1, h2, h3, h4⟩
            have hk : k = i := by
              by_contra hne
              have := h4 i (le_refl i) (by omega)
              rw [hri] at this
              exact Bool.noConfusion this
            subst hk
            simp [waitLoop, hri]
      | false =>
          have hstep : (waitLoop f i (n + 1)).readyAt = (waitLoop f (i + 1) n).readyAt := by
            cases hg : gotResponse (f i) with
            | true => simp [waitLoop, hri, hg]
            | false => simp [waitLoop, hri, hg]
          rw [hstep, ih (i + 1) k]
          constructor
          · rintro ⟨h1, h2, h3, h4⟩
            refine ⟨by omega, by omega, h3, fun j hj1 hj2 => ?_⟩
            rcases Nat.eq_or_lt_of_le hj1 with he | hlt
            · subst he; exact hri
            · exact h4 j hlt hj2
          · rintro ⟨h1, h2, h3, h4⟩
            have hik : i ≠ k := by
              intro he
              rw [← he] at h3
              rw [hri] at h3
              exact Bool.noConfusion h3
            exact ⟨by omega, by omega, h3, fun j hj1 hj2 => h4 j (by omega) hj2⟩

/-- Characterization of the attempts whose response body is closed: exactly
the executed attempts that received a response. -/
lemma waitLoop_closed_iff (f : Nat → Attempt) :
    ∀ (fuel i j : Nat),
      j ∈ (waitLoop f i fuel).closed ↔
        (i ≤ j ∧ j < i + fuel ∧ gotResponse (f j) = true ∧
          ∀ k, i ≤ k → k < j → isReady (f k) = false) := by
  intro fuel
  induction fuel with
  | zero =>
      intro i j
      constructor
      · intro h; simp [waitLoop] at h
      · rintro ⟨h1, h2, -, -⟩; omega
  | succ n ih =>
      intro i j
      cases hri : isReady (f i) with
      | true =>
          constructor
          · intro h
            have hij : j = i := by simpa [waitLoop, hri] using h
            subst hij
            exact ⟨le_refl _, by omega, got_of_ready hri, fun k hk1 hk2 => by omega⟩
          · rintro ⟨h1, h2, h3, h4⟩
            have hij : j = i := by
              by_contra hne
              have := h4 i (le_refl i) (by omega)
              rw [hri] at this
              exact Bool.noConfusion this
            subst hij
            simp [waitLoop, hri]
      | false =>
          cases hg : gotResponse (f i) with
          | true =>
              have hstep : j ∈ (waitLoop f i (n + 1)).closed ↔
                  (j = i ∨ j ∈ (waitLoop f (i + 1) n).closed) := by
                simp [waitLoop, hri, hg]
              rw [hstep, ih (i + 1) j]
              constructor
              · rintro (rfl | ⟨h1, h2, h3, h4⟩)
                · exact ⟨le_refl _, by omega, hg, fun k hk1 hk2 => by omega⟩
                · refine ⟨by omega, by omega, h3, fun k hk1 hk2 => ?_⟩
                  rcases Nat.eq_or_lt_of_le hk1 with he | hlt
                  · subst he; exact hri
                  · exact h4 k hlt hk2
              · rintro ⟨h1, h2, h3, h4⟩
                by_cases hij : j = i
                · exact Or.inl hij
                · exact Or.inr ⟨by omega, by omega, h3, fun k hk1 hk2 => h4 k (by omega) hk2⟩
          | false =>
              have hstep : j ∈ (waitLoop f i (n + 1)).closed ↔
                  j ∈ (waitLoop f (i + 1) n).closed := by
                simp [waitLoop, hri, hg]
              rw [hstep, ih (i + 1) j]
              constructor
              · rintro ⟨h1, h2, h3, h4⟩
                refine ⟨by omega, by omega, h3, fun k hk1 hk2 => ?_⟩
                rcases Nat.eq_or_lt_of_le hk1 with he | hlt
                · subst he; exact hri
                · exact h4 k hlt hk2
              · rintro ⟨h1, h2, h3, h4⟩
                have hij : j ≠ i := by
                  intro he
                  rw [he] at h3
                  rw [hg] at h3
                  exact Bool.noConfusion h3
                exact ⟨by omega, by omega, h3, fun k hk1 hk2 => h4 k (by omega) hk2⟩

/-- The loop falls through to `t.Fatal` exactly when no attempt in its
window is ready. -/
lemma waitLoop_fatal_iff (f : Nat → Attempt) :
    ∀ (fuel i : Nat),
      (waitLoop f i fuel).fatal = true ↔
        ∀ j, i ≤ j → j < i + fuel → isReady (f j) = false := by
  intro fuel
  induction fuel with
  | zero =>
      intro i
      constructor
      · intro h j h1 h2; omega
      · intro h; simp [waitLoop]
  | succ n ih =>
      intro i
      cases hri : isReady (f i) with
      | true =>
          constructor
          · intro h
            have : (waitLoop f i (n + 1)).fatal = false := by simp [waitLoop, hri]
            rw [this] at h
            exact Bool.noConfusion h
          · intro h
            have := h i (le_refl i) (by omega)
            rw [hri] at this
            exact Bool.noConfusion this
      | false =>
          have hstep : (waitLoop f i (n + 1)).fatal = (waitLoop f (i + 1) n).fatal := by
            cases hg : gotResponse (f i) with
            | true => simp [waitLoop, hri, hg]
            | false => simp [waitLoop, hri, hg]
          rw [hstep, ih (i + 1)]
          constructor
          · intro h j hj1 hj2
            rcases Nat.eq_or_lt_of_le hj1 with he | hlt
            · subst he; exact hri
            · exact h j hlt (by omega)
          · intro h j hj1 hj2
            exact h j (by omega) (by omega)

/-- The loop reports no success exactly when it fell through. -/
lemma waitLoop_none_iff (f : Nat → Attempt) :
    ∀ (fuel i : Nat),
      ((waitLoop f i fuel).readyAt = none ↔ (waitLoop f i fuel).fatal = true) := by
  intro fuel
  induction fuel with
  | zero => intro i; simp [waitLoop]
  | succ n ih =>
      intro i
      cases hri : isReady (f i) with
      | true => simp [waitLoop, hri]
      | false =>
          cases hg : gotResponse (f i) with
          | true => simpa [waitLoop, hri, hg] using ih (i + 1)
          | false => simpa [waitLoop, hri, hg] using ih (i + 1)

/-- Claim C7: `waitForServer` issues at most 30 GET requests against
`baseURL + "/health"` and returns successfully exactly at the first
attempt whose response has status 200 (any other status or a connection
error counts as not ready); every executed attempt that received a
response has its body closed, whether or not it matched; and the loop ends
in `t.Fatal` exactly when none of the 30 attempts is ready. -/
theorem waitForServer_spec (get : String → Nat → Attempt) (baseURL : String) :
    (∀ k, (waitForServer get baseURL).readyAt = some k ↔
        (k < 30 ∧ isReady (get (baseURL ++ "/health") k) = true ∧
          ∀ j, j < k → isReady (get (baseURL ++ "/health") j) = false)) ∧
    (∀ j, j ∈ (waitForServer get baseURL).closed ↔
        (j < 30 ∧ gotResponse (get (baseURL ++ "/health") j) = true ∧
          ∀ k, k < j → isReady (get (baseURL ++ "/health") k) = false)) ∧
    ((waitForServer get baseURL).fatal = true ↔
        ∀ j, j < 30 → isReady (get (baseURL ++ "/health") j) = false) ∧
    ((waitForServer get baseURL).readyAt = none ↔
        (waitForServer get baseURL).fatal = true) := by
  refine ⟨fun k => ?_, fun j => ?_, ?_, ?_⟩
  · simpa [waitForServer] using waitLoop_readyAt_iff (get (baseURL ++ "/health")) 30 0 k
  · simpa [waitForServer] using waitLoop_closed_iff (get (baseURL ++ "/health")) 30 0 j
  · simpa [waitForServer] using waitLoop_fatal_iff (get (baseURL ++ "/health")) 30 0
  · simpa [waitForServer] using waitLoop_none_iff (get (baseURL ++ "/health")) 30 0

/-- Witness for C7: with a health endpoint failing on the first two
attempts and ready from the third, the poll returns at attempt index 2. -/
theorem waitForServer_spec_witness :
    (waitForServer demoGet "http://localhost:8080").readyAt = some 2 :=
  ((waitForServer_spec demoGet "http://localhost:8080").1 2).mpr (by decide)

/-- Claim C2 (code bug): at a state with exactly two running test-image
containers (`aaa`, `bbb`) and a successful listing, the sweep does list
them and does issue exactly one batch stop call — but the source builds
`exec.Command("docker", "stop")` with no container arguments and writes
the identifiers only to the command's stdin (e2e_test.go:356-357), which
the Docker CLI does not read: the command always fails with a usage error
and stops nothing.  Both containers are still running after the sweep and
only a warning is logged, refuting the claimed "stops exactly those two";
the no-matching no-op and the warning-only listing-failure parts of the
claim do hold, and the trace never contains a fatal action. -/
theorem sweep_batch_stop_stops_nothing :
    (cleanupAllTestContainers demoDocker true).2.2 =
      [{ argIds := [], stdinIds := ["aaa", "bbb"] }] ∧
    (cleanupAllTestContainers demoDocker true).1 = demoDocker ∧
    Container.mk "aaa" testImage true ∈ (cleanupAllTestContainers demoDocker true).1 ∧
    Container.mk "bbb" testImage true ∈ (cleanupAllTestContainers demoDocker true).1 ∧
    logsOnly (cleanupAllTestContainers demoDocker true).2.1 = true ∧
    (cleanupAllTestContainers [] true).1 = [] ∧
    (cleanupAllTestContainers [] true).2.2 = [] ∧
    (cleanupAllTestContainers demoDocker false).1 = demoDocker ∧
    (cleanupAllTestContainers demoDocker false).2.2 = [] ∧
    logsOnly (cleanupAllTestContainers demoDocker false).2.1 = true := by
  decide

set_option maxRecDepth 8192 in
/-- Claim C1 (code bug): on the run where the container starts, the server
becomes healthy and the client is constructed, but the initialize handshake
in the `Initialize` sub-test of `runTestSuite` errors, `log.Fatalf` exits
the process before any `t.Cleanup` handler runs: the container started by
`startHTTPContainer` is still running when the process exits, and the
sweep never fires — refuting the invariant that every container handle is
stopped or killed before the process exits. -/
theorem container_leak_on_handshake_error :
    (testE2E_HTTP demoInitErrCfg []).processExited = true ∧
    Container.mk "0123456789ab" testImage true ∈ (testE2E_HTTP demoInitErrCfg []).finalState := by
  decide

end TerraformMCP
